import Mathlib

/-!
# Single-cycle RISC-V processor model (`src/processors/ss/riscv_ss.h`)

A shallow embedding of the class `SingleCycleRISCV`: the wiring made in its
constructor, and the `finalize` / `clock` / `rewind` / `reset` overrides that
drive the one-cycle-delayed `finished` signal.

The subcomponent classes (`Decode`, `Control`, `Immediate`, `ALU`, `Branch`,
`RegisterFile`, `RVMemory`, `ROM`, `EcallChecker`) and the syscall handler are
declared in other headers; their behaviour is a parameter (`Components`).
The circuit primitives (`Adder`, `Register`, `EnumMultiplexer`, `And`, `Or`)
and `Design::clock/rewind/reset` are modelled from the specification.
-/

namespace Ripes

/-! ## Enumerations and constants of `riscv.h` -/

/-- Modelled from the spec: `RV_REG_WIDTH`, declared in `riscv.h`; registers and
addresses are 32 bits wide. -/
def RV_REG_WIDTH : Nat := 32

/-- Modelled from the spec: the selector enumeration of the next-PC multiplexer
(`PcSrc` of `riscv.h`). -/
inductive PcSrc where
  | PC4
  | ALU
  deriving DecidableEq, Repr

/-- Modelled from the spec: register write-back source (`RegWrSrc` of `riscv.h`). -/
inductive RegWrSrc where
  | MEMREAD
  | ALURES
  | PC4
  deriving DecidableEq, Repr

/-- Modelled from the spec: source of ALU operand 1 (`AluSrc1` of `riscv.h`). -/
inductive AluSrc1 where
  | REG1
  | PC
  deriving DecidableEq, Repr

/-- Modelled from the spec: source of ALU operand 2 (`AluSrc2` of `riscv.h`). -/
inductive AluSrc2 where
  | REG2
  | IMM
  deriving DecidableEq, Repr

/-- Modelled from the spec: numeric value of a `PcSrc` enumerator. The comment at
`riscv_ss.h:34-36` requires the values to adhere to the boolean 0/1 values of the
control-flow OR gate, and the spec (4.8) takes the ALU result on a true decision,
so `PC4 = 0` and `ALU = 1`. -/
def PcSrc.ord : PcSrc → Nat
  | .PC4 => 0
  | .ALU => 1

/-- Modelled from the spec: numeric value of a `RegWrSrc` enumerator (declaration order). -/
def RegWrSrc.ord : RegWrSrc → Nat
  | .MEMREAD => 0
  | .ALURES => 1
  | .PC4 => 2

/-- Modelled from the spec: numeric value of an `AluSrc1` enumerator (declaration order). -/
def AluSrc1.ord : AluSrc1 → Nat
  | .REG1 => 0
  | .PC => 1

/-- Modelled from the spec: numeric value of an `AluSrc2` enumerator (declaration order). -/
def AluSrc2.ord : AluSrc2 → Nat
  | .REG2 => 0
  | .IMM => 1

/-! ## Circuit primitives -/

/-- Modelled from the spec: `Adder<W>` of the circuit library, `out = op1 + op2`
truncated to `W` bits. -/
def Adder.out (W op1 op2 : Nat) : Nat := (op1 + op2) % 2 ^ W

/-- Modelled from the spec: `And<1, N>` gate, the conjunction of its one-bit inputs. -/
def And.out (ins : List Bool) : Bool := ins.all id

/-- Modelled from the spec: `Or<1, N>` gate, the disjunction of its one-bit inputs. -/
def Or.out (ins : List Bool) : Bool := ins.any id

/-- Modelled from the spec: `EnumMultiplexer<E, W>`. The input port `get(e)` sits at
the index given by the numeric value of `e`; the output forwards the input port whose
index equals the value on `select` (0 when no port has that index). -/
def EnumMultiplexer.out {E : Type} (ord : E → Nat) (all : List E) (get : E → Nat)
    (select : Nat) : Nat :=
  match all.find? (fun e => ord e == select) with
  | some e => get e
  | none => 0

/-- Modelled from the spec: the address-space storage (`SparseArray`), a map from an
address to the value stored there. -/
abbrev SparseArray := Nat → Nat

/-! ## Subcomponents declared in other headers -/

/-- Output ports of `Control` that `riscv_ss.h` connects. The ALU, comparison and
memory operation codes are kept as numbers. -/
structure ControlSignals where
  reg_do_write_ctrl : Bool
  reg_wr_src_ctrl : RegWrSrc
  comp_ctrl : Nat
  do_branch : Bool
  do_jump : Bool
  alu_op1_ctrl : AluSrc1
  alu_op2_ctrl : AluSrc2
  alu_ctrl : Nat
  mem_do_write_ctrl : Bool
  mem_ctrl : Nat

/-- Behaviour of the subcomponents that `riscv_ss.h` instantiates but does not define,
one field per output port or storage operation. -/
structure Components where
  /-- `ROM::data_out` for the address on `addr`. -/
  instr_mem : SparseArray → Nat → Nat
  /-- `Decode::opcode`. -/
  decode_opcode : Nat → Nat
  /-- `Decode::wr_reg_idx`. -/
  decode_wr_reg_idx : Nat → Nat
  /-- `Decode::r1_reg_idx`. -/
  decode_r1_reg_idx : Nat → Nat
  /-- `Decode::r2_reg_idx`. -/
  decode_r2_reg_idx : Nat → Nat
  /-- All outputs of `Control` for an opcode. -/
  control : Nat → ControlSignals
  /-- `Immediate::imm` for (opcode, instr). -/
  immediate : Nat → Nat → Nat
  /-- `ALU::res` for (ctrl, op1, op2). -/
  alu : Nat → Nat → Nat → Nat
  /-- `Branch::res` for (comp_op, op1, op2). -/
  branch : Nat → Nat → Nat → Bool
  /-- Read port of `RegisterFile` for (registers, index). -/
  reg_read : SparseArray → Nat → Nat
  /-- Enabled write of `RegisterFile` for (registers, wr_addr, data_in). -/
  reg_write : SparseArray → Nat → Nat → SparseArray
  /-- `RVMemory::data_out` for (memory, addr, op). -/
  mem_read : SparseArray → Nat → Nat → Nat
  /-- Enabled write of `RVMemory` for (memory, addr, data_in, op). -/
  mem_write : SparseArray → Nat → Nat → Nat → SparseArray
  /-- The opcode `EcallChecker` looks for. -/
  ecall_opcode : Nat
  /-- Whether the registered `handleSysCall` calls `finalize()` when it is run with the
  given PC, registers and memory. -/
  handleSysCall : Nat → SparseArray → SparseArray → Bool

/-- Modelled from the spec: the write port of `RegisterFile` at the clock edge, gated
by `wr_en`. -/
def RegisterFile.clock (C : Components) (regs : SparseArray) (wr_addr data_in : Nat)
    (wr_en : Bool) : SparseArray :=
  if wr_en then C.reg_write regs wr_addr data_in else regs

/-- Modelled from the spec: the write port of `RVMemory` at the clock edge; a write
occurs only when `wr_en` is set (spec 4.7). -/
def RVMemory.clock (C : Components) (mem : SparseArray) (addr data_in op : Nat)
    (wr_en : Bool) : SparseArray :=
  if wr_en then C.mem_write mem addr data_in op else mem

/-! ## The wiring of the constructor (`riscv_ss.h:27-112`) -/

/-- `pc_reg->out >> pc_4->op1; 4 >> pc_4->op2` (lines 30-31). -/
def pc_4_out (pc_reg_out : Nat) : Nat := Adder.out RV_REG_WIDTH pc_reg_out 4

/-- `branch->res >> *br_and->in[0]; control->do_branch >> *br_and->in[1]` (lines 78-79). -/
def br_and_out (branch_res do_branch : Bool) : Bool := And.out [branch_res, do_branch]

/-- `br_and->out >> *controlflow_or->in[0]; control->do_jump >> *controlflow_or->in[1]`
(lines 80-81). -/
def controlflow_or_out (branch_res do_branch do_jump : Bool) : Bool :=
  Or.out [br_and_out branch_res do_branch, do_jump]

/-- Output of the next-PC multiplexer: `pc_4->out >> pc_src->get(PcSrc::PC4)`,
`alu->res >> pc_src->get(PcSrc::ALU)` (lines 82-83), selected by the one-bit output of
the control-flow OR gate, `controlflow_or->out >> pc_src->select` (line 37). -/
def pc_src_out (pc_reg_out alu_res : Nat) (branch_res do_branch do_jump : Bool) : Nat :=
  EnumMultiplexer.out PcSrc.ord [PcSrc.PC4, PcSrc.ALU]
    (fun e => match e with
      | .PC4 => pc_4_out pc_reg_out
      | .ALU => alu_res)
    (controlflow_or_out branch_res do_branch do_jump).toNat

/-- Output of the write-back multiplexer (lines 65-68). -/
def reg_wr_src_out (data_mem_data_out alu_res pc_4 : Nat) (reg_wr_src_ctrl : RegWrSrc) : Nat :=
  EnumMultiplexer.out RegWrSrc.ord [RegWrSrc.MEMREAD, RegWrSrc.ALURES, RegWrSrc.PC4]
    (fun e => match e with
      | .MEMREAD => data_mem_data_out
      | .ALURES => alu_res
      | .PC4 => pc_4)
    reg_wr_src_ctrl.ord

/-- Output of the ALU operand 1 multiplexer (lines 87-89). -/
def alu_op1_src_out (r1_out pc_reg_out : Nat) (alu_op1_ctrl : AluSrc1) : Nat :=
  EnumMultiplexer.out AluSrc1.ord [AluSrc1.REG1, AluSrc1.PC]
    (fun e => match e with
      | .REG1 => r1_out
      | .PC => pc_reg_out)
    alu_op1_ctrl.ord

/-- Output of the ALU operand 2 multiplexer (lines 91-93). -/
def alu_op2_src_out (r2_out imm : Nat) (alu_op2_ctrl : AluSrc2) : Nat :=
  EnumMultiplexer.out AluSrc2.ord [AluSrc2.REG2, AluSrc2.IMM]
    (fun e => match e with
      | .REG2 => r2_out
      | .IMM => imm)
    alu_op2_ctrl.ord

/-- Every port value of one propagated cycle, named `component_port`. -/
structure Signals where
  pc_reg_out : Nat
  pc_4_out : Nat
  instr_mem_addr : Nat
  instr_mem_data_out : Nat
  decode_instr : Nat
  decode_opcode : Nat
  decode_wr_reg_idx : Nat
  decode_r1_reg_idx : Nat
  decode_r2_reg_idx : Nat
  control : ControlSignals
  immediate_imm : Nat
  registerFile_r1_addr : Nat
  registerFile_r2_addr : Nat
  registerFile_r1_out : Nat
  registerFile_r2_out : Nat
  branch_comp_op : Nat
  branch_op1 : Nat
  branch_op2 : Nat
  branch_res : Bool
  alu_op1 : Nat
  alu_op2 : Nat
  alu_ctrl : Nat
  alu_res : Nat
  data_mem_addr : Nat
  data_mem_wr_en : Bool
  data_mem_data_in : Nat
  data_mem_op : Nat
  data_mem_data_out : Nat
  registerFile_wr_addr : Nat
  registerFile_wr_en : Bool
  registerFile_data_in : Nat
  controlflow_or_out : Bool
  pc_src_out : Nat
  pc_reg_in : Nat
  ecallChecker_opcode : Nat

/-- Propagation of the design: the value of every port for the committed state
(program counter, register address space, memory address space), following the
connections of the constructor line by line. -/
def propagateDesign (C : Components) (pc_reg : Nat) (m_regMem m_memory : SparseArray) :
    Signals :=
  -- Program counter (lines 30-31)
  let pc_reg_out := pc_reg
  let pc4 := pc_4_out pc_reg_out
  -- Instruction memory (lines 41-42)
  let instr_mem_addr := pc_reg_out
  let instr := C.instr_mem m_memory instr_mem_addr
  -- Decode (line 46)
  let decode_instr := instr
  let opcode := C.decode_opcode decode_instr
  let wr_reg_idx := C.decode_wr_reg_idx decode_instr
  let r1_reg_idx := C.decode_r1_reg_idx decode_instr
  let r2_reg_idx := C.decode_r2_reg_idx decode_instr
  -- Control signals (line 50)
  let ctrl := C.control opcode
  -- Immediate (lines 54-55)
  let imm := C.immediate opcode instr
  -- Registers, read side (lines 60-61, 70)
  let r1_addr := r1_reg_idx
  let r2_addr := r2_reg_idx
  let r1_out := C.reg_read m_regMem r1_addr
  let r2_out := C.reg_read m_regMem r2_addr
  -- Branch (lines 74-76)
  let branch_comp_op := ctrl.comp_ctrl
  let branch_op1 := r1_out
  let branch_op2 := r2_out
  let branch_res := C.branch branch_comp_op branch_op1 branch_op2
  -- ALU (lines 87-98)
  let alu_op1 := alu_op1_src_out r1_out pc_reg_out ctrl.alu_op1_ctrl
  let alu_op2 := alu_op2_src_out r2_out imm ctrl.alu_op2_ctrl
  let alu_ctrl := ctrl.alu_ctrl
  let alu_res := C.alu alu_ctrl alu_op1 alu_op2
  -- Data memory (lines 102-106)
  let data_mem_addr := alu_res
  let data_mem_wr_en := ctrl.mem_do_write_ctrl
  let data_mem_data_in := r2_out
  let data_mem_op := ctrl.mem_ctrl
  let data_mem_data_out := C.mem_read m_memory data_mem_addr data_mem_op
  -- Registers, write side (lines 59, 62-68)
  let registerFile_wr_addr := wr_reg_idx
  let registerFile_wr_en := ctrl.reg_do_write_ctrl
  let registerFile_data_in := reg_wr_src_out data_mem_data_out alu_res pc4 ctrl.reg_wr_src_ctrl
  -- Next program counter (lines 32, 37, 78-83)
  let or_out := controlflow_or_out branch_res ctrl.do_branch ctrl.do_jump
  let pc_src := pc_src_out pc_reg_out alu_res branch_res ctrl.do_branch ctrl.do_jump
  let pc_reg_in := pc_src
  -- Ecall checker (line 110)
  let ecallChecker_opcode := opcode
  { pc_reg_out := pc_reg_out
    pc_4_out := pc4
    instr_mem_addr := instr_mem_addr
    instr_mem_data_out := instr
    decode_instr := decode_instr
    decode_opcode := opcode
    decode_wr_reg_idx := wr_reg_idx
    decode_r1_reg_idx := r1_reg_idx
    decode_r2_reg_idx := r2_reg_idx
    control := ctrl
    immediate_imm := imm
    registerFile_r1_addr := r1_addr
    registerFile_r2_addr := r2_addr
    registerFile_r1_out := r1_out
    registerFile_r2_out := r2_out
    branch_comp_op := branch_comp_op
    branch_op1 := branch_op1
    branch_op2 := branch_op2
    branch_res := branch_res
    alu_op1 := alu_op1
    alu_op2 := alu_op2
    alu_ctrl := alu_ctrl
    alu_res := alu_res
    data_mem_addr := data_mem_addr
    data_mem_wr_en := data_mem_wr_en
    data_mem_data_in := data_mem_data_in
    data_mem_op := data_mem_op
    data_mem_data_out := data_mem_data_out
    registerFile_wr_addr := registerFile_wr_addr
    registerFile_wr_en := registerFile_wr_en
    registerFile_data_in := registerFile_data_in
    controlflow_or_out := or_out
    pc_src_out := pc_src
    pc_reg_in := pc_reg_in
    ecallChecker_opcode := ecallChecker_opcode }

/-! ## The clocked design -/

/-- A saved set of clocked values: program counter, registers, memory. -/
structure Snapshot where
  pc_reg : Nat
  m_regMem : SparseArray
  m_memory : SparseArray

/-- State held by the `Design` base class for this processor: the PC register, the
two address spaces, the stack of saved states used by `rewind`, and the values
restored by `reset`. -/
structure Design where
  pc_reg : Nat
  m_regMem : SparseArray
  m_memory : SparseArray
  rewindStack : List Snapshot
  initial : Snapshot

/-- Port values of the design in its current state. -/
def Design.signals (C : Components) (d : Design) : Signals :=
  propagateDesign C d.pc_reg d.m_regMem d.m_memory

/-- The `EcallChecker` subcomponent (lines 110-111): during propagation it compares the
decoded opcode with the ecall opcode and, on a match, runs the registered syscall
handler. The result tells whether that handler called `finalize()`. -/
def Design.ecallChecker (C : Components) (d : Design) : Bool :=
  (d.signals C).ecallChecker_opcode == C.ecall_opcode &&
    C.handleSysCall d.pc_reg d.m_regMem d.m_memory

/-- Modelled from the spec: `Design::clock()`. The current state is saved for `rewind`,
the PC register takes the value on its input, the register file and the data memory
perform their gated writes (all from values propagated before the edge), and the
design is propagated again. The second component tells whether `finalize()` was
called during that propagation. -/
def Design.clock (C : Components) (d : Design) : Design × Bool :=
  let s := d.signals C
  let next : Design :=
    { pc_reg := s.pc_reg_in
      m_regMem := RegisterFile.clock C d.m_regMem s.registerFile_wr_addr
        s.registerFile_data_in s.registerFile_wr_en
      m_memory := RVMemory.clock C d.m_memory s.data_mem_addr s.data_mem_data_in
        s.data_mem_op s.data_mem_wr_en
      rewindStack := { pc_reg := d.pc_reg, m_regMem := d.m_regMem, m_memory := d.m_memory }
        :: d.rewindStack
      initial := d.initial }
  (next, next.ecallChecker C)

/-- Modelled from the spec: `Design::rewind()`. The most recently saved state (if any)
is restored and the design is propagated again. -/
def Design.rewind (C : Components) (d : Design) : Design × Bool :=
  match d.rewindStack with
  | [] => (d, d.ecallChecker C)
  | snap :: rest =>
    let prev : Design :=
      { pc_reg := snap.pc_reg
        m_regMem := snap.m_regMem
        m_memory := snap.m_memory
        rewindStack := rest
        initial := d.initial }
    (prev, prev.ecallChecker C)

/-- Modelled from the spec: `Design::reset()`. PC, registers and memory return to their
configured initial values, the saved states are dropped, and the design is propagated
again. -/
def Design.reset (C : Components) (d : Design) : Design × Bool :=
  let init : Design :=
    { pc_reg := d.initial.pc_reg
      m_regMem := d.initial.m_regMem
      m_memory := d.initial.m_memory
      rewindStack := []
      initial := d.initial }
  (init, init.ecallChecker C)

/-! ## `SingleCycleRISCV` (`riscv_ss.h:146-190`) -/

/-- The processor object: the design plus the private member `m_finishInNextCycle`
(line 190). -/
structure SingleCycleRISCV where
  design : Design
  m_finishInNextCycle : Bool

namespace SingleCycleRISCV

/-- `pcForStage` (line 149): `pc_reg->out.uValue()`. -/
def pcForStage (C : Components) (p : SingleCycleRISCV) : Nat :=
  (p.design.signals C).pc_reg_out

/-- `nextPcForStage` (line 150): `pc_src->out.uValue()`. -/
def nextPcForStage (C : Components) (p : SingleCycleRISCV) : Nat :=
  (p.design.signals C).pc_src_out

/-- `finalize` (lines 161-164): `m_finishInNextCycle = true`. -/
def finalize (p : SingleCycleRISCV) : SingleCycleRISCV :=
  { p with m_finishInNextCycle := true }

/-- Effect on the processor object of a base-class call that returned design `r.1` and
during which the syscall handler called `finalize()` iff `r.2`. -/
def afterDesign (p : SingleCycleRISCV) (r : Design × Bool) : SingleCycleRISCV :=
  if r.2 then finalize { p with design := r.1 } else { p with design := r.1 }

/-- `clock` (lines 168-176). The flag is read before `Design::clock()`, which may set
it; the second component tells whether `finished.Emit()` ran. -/
def clock (C : Components) (p : SingleCycleRISCV) : SingleCycleRISCV × Bool :=
  let finishInThisCycle := p.m_finishInNextCycle
  let p1 := afterDesign p (Design.clock C p.design)
  (p1, finishInThisCycle)

/-- `rewind` (lines 178-182): `Design::rewind()`, then `m_finishInNextCycle = false`. -/
def rewind (C : Components) (p : SingleCycleRISCV) : SingleCycleRISCV :=
  let p1 := afterDesign p (Design.rewind C p.design)
  { p1 with m_finishInNextCycle := false }

/-- `reset` (lines 184-187): `Design::reset()`, then `m_finishInNextCycle = false`. -/
def reset (C : Components) (p : SingleCycleRISCV) : SingleCycleRISCV :=
  let p1 := afterDesign p (Design.reset C p.design)
  { p1 with m_finishInNextCycle := false }

end SingleCycleRISCV

/-- A call made on the processor by its owner. -/
inductive Call where
  | clock
  | finalize
  | rewind
  | reset
  deriving DecidableEq, Repr

/-- Runs a sequence of calls; the list holds, for every `clock()` of the sequence in
order, whether it emitted `finished`. -/
def run (C : Components) : List Call → SingleCycleRISCV → SingleCycleRISCV × List Bool
  | [], p => (p, [])
  | Call.clock :: cs, p =>
    let r := SingleCycleRISCV.clock C p
    let rest := run C cs r.1
    (rest.1, r.2 :: rest.2)
  | Call.finalize :: cs, p => run C cs (SingleCycleRISCV.finalize p)
  | Call.rewind :: cs, p => run C cs (SingleCycleRISCV.rewind C p)
  | Call.reset :: cs, p => run C cs (SingleCycleRISCV.reset C p)

/-- The processor after `n` consecutive `clock()` calls. -/
def clockN (C : Components) : Nat → SingleCycleRISCV → SingleCycleRISCV
  | 0, p => p
  | n + 1, p => clockN C n (SingleCycleRISCV.clock C p).1

/-! ## A concrete instance used to evaluate the model -/

/-- Control outputs with every enable clear. -/
def idleControl : ControlSignals :=
  { reg_do_write_ctrl := false
    reg_wr_src_ctrl := RegWrSrc.ALURES
    comp_ctrl := 0
    do_branch := false
    do_jump := false
    alu_op1_ctrl := AluSrc1.REG1
    alu_op2_ctrl := AluSrc2.REG2
    alu_ctrl := 0
    mem_do_write_ctrl := false
    mem_ctrl := 0 }

/-- A small instance of the subcomponents. Opcodes are the low seven bits of the
instruction; 19 (register-immediate add), 35 (store), 99 (branch on equal) and 111 (jump
and link) have control outputs of their own, 115 is the ecall opcode, and every other
opcode gets `idleControl`. The syscall handler always calls `finalize()`. -/
def sampleComponents : Components :=
  { instr_mem := fun mem addr => mem addr
    decode_opcode := fun instr => instr % 128
    decode_wr_reg_idx := fun instr => (instr / 128) % 32
    decode_r1_reg_idx := fun instr => (instr / 32768) % 32
    decode_r2_reg_idx := fun instr => (instr / 1048576) % 32
    control := fun opcode =>
      if opcode = 19 then
        { idleControl with reg_do_write_ctrl := true, alu_op2_ctrl := AluSrc2.IMM }
      else if opcode = 35 then
        { idleControl with mem_do_write_ctrl := true, alu_op2_ctrl := AluSrc2.IMM, mem_ctrl := 8 }
      else if opcode = 99 then
        { idleControl with do_branch := true, comp_ctrl := 1, alu_op1_ctrl := AluSrc1.PC,
                           alu_op2_ctrl := AluSrc2.IMM }
      else if opcode = 111 then
        { idleControl with do_jump := true, reg_do_write_ctrl := true,
                           reg_wr_src_ctrl := RegWrSrc.PC4, alu_op1_ctrl := AluSrc1.PC,
                           alu_op2_ctrl := AluSrc2.IMM }
      else idleControl
    immediate := fun _ instr => instr / 1048576
    alu := fun _ op1 op2 => (op1 + op2) % 2 ^ 32
    branch := fun comp_op op1 op2 => comp_op == 1 && op1 == op2
    reg_read := fun regs i => if i = 0 then 0 else regs i
    reg_write := fun regs i v => fun j => if j = i ∧ i ≠ 0 then v else regs j
    mem_read := fun mem addr _ => mem addr
    mem_write := fun mem addr v _ => fun a => if a = addr then v else mem a
    ecall_opcode := 115
    handleSysCall := fun _ _ _ => true }

/-- The all-zero address space. -/
def zeroArray : SparseArray := fun _ => 0

/-- A design at PC 0 whose memory holds only zero words (opcode 0, for which
`sampleComponents` gives `idleControl`). -/
def idleDesign : Design :=
  { pc_reg := 0
    m_regMem := zeroArray
    m_memory := zeroArray
    rewindStack := []
    initial := { pc_reg := 0, m_regMem := zeroArray, m_memory := zeroArray } }

/-- Program memory: `addi x1, x0, 5` at address 0, `ecall` at address 4. -/
def ecallProgram : SparseArray := fun a =>
  if a = 0 then 5243027 else if a = 4 then 115 else 0

/-- A design at PC 0 about to run `ecallProgram`. -/
def ecallDesign : Design :=
  { pc_reg := 0
    m_regMem := zeroArray
    m_memory := ecallProgram
    rewindStack := []
    initial := { pc_reg := 0, m_regMem := zeroArray, m_memory := ecallProgram } }

/-- Program memory: `jal x1, 8` at address 4 (opcode 111, rd 1, immediate 8). -/
def jumpProgram : SparseArray := fun a => if a = 4 then 8388847 else 0

/-- A design at PC 4 about to run the jump of `jumpProgram`. -/
def jumpDesign : Design :=
  { pc_reg := 4
    m_regMem := zeroArray
    m_memory := jumpProgram
    rewindStack := []
    initial := { pc_reg := 4, m_regMem := zeroArray, m_memory := jumpProgram } }

/-- Program memory: a branch on equal at address 8 (opcode 99, immediate 12), comparing
two registers that both hold 0. -/
def branchProgram : SparseArray := fun a => if a = 8 then 12583011 else 0

/-- A design at PC 8 about to run the branch of `branchProgram`. -/
def branchDesign : Design :=
  { pc_reg := 8
    m_regMem := zeroArray
    m_memory := branchProgram
    rewindStack := []
    initial := { pc_reg := 8, m_regMem := zeroArray, m_memory := branchProgram } }

/-- Program memory: a store at address 0 (opcode 35, base register 0, source register 4,
immediate 68). -/
def storeProgram : SparseArray := fun a => if a = 0 then 71303203 else 0

/-- Registers with the value 7 in register 4. -/
def storeRegisters : SparseArray := fun i => if i = 4 then 7 else 0

/-- A design at PC 0 about to run the store of `storeProgram`. -/
def storeDesign : Design :=
  { pc_reg := 0
    m_regMem := storeRegisters
    m_memory := storeProgram
    rewindStack := []
    initial := { pc_reg := 0, m_regMem := storeRegisters, m_memory := storeProgram } }

/-! ## Lemmas about the wiring -/

theorem pc_4_out_eq (pc : Nat) : pc_4_out pc = (pc + 4) % 2 ^ 32 := by
  simp [pc_4_out, Adder.out, RV_REG_WIDTH]

theorem controlflow_or_out_eq (branch_res do_branch do_jump : Bool) :
    controlflow_or_out branch_res do_branch do_jump = ((branch_res && do_branch) || do_jump) := by
  simp [controlflow_or_out, br_and_out, Or.out, And.out]

theorem pc_src_select_one {get : PcSrc → Nat} :
    EnumMultiplexer.out PcSrc.ord [PcSrc.PC4, PcSrc.ALU] get (true).toNat = get PcSrc.ALU := by
  simp [EnumMultiplexer.out, PcSrc.ord, List.find?]

theorem pc_src_select_zero {get : PcSrc → Nat} :
    EnumMultiplexer.out PcSrc.ord [PcSrc.PC4, PcSrc.ALU] get (false).toNat = get PcSrc.PC4 := by
  simp [EnumMultiplexer.out, PcSrc.ord, List.find?]

theorem pc_src_out_eq (pc alu_res : Nat) (branch_res do_branch do_jump : Bool) :
    pc_src_out pc alu_res branch_res do_branch do_jump =
      if ((branch_res && do_branch) || do_jump) = true then alu_res else (pc + 4) % 2 ^ 32 := by
  unfold pc_src_out
  rw [controlflow_or_out_eq]
  cases h : ((branch_res && do_branch) || do_jump)
  · rw [pc_src_select_zero, pc_4_out_eq]; simp
  · rw [pc_src_select_one]; simp

theorem reg_wr_src_out_eq (mem_out alu_res pc4 : Nat) (sel : RegWrSrc) :
    reg_wr_src_out mem_out alu_res pc4 sel =
      match sel with
      | RegWrSrc.ALURES => alu_res
      | RegWrSrc.MEMREAD => mem_out
      | RegWrSrc.PC4 => pc4 := by
  cases sel <;> simp [reg_wr_src_out, EnumMultiplexer.out, RegWrSrc.ord, List.find?]

theorem alu_op1_src_out_eq (r1_out pc : Nat) (sel : AluSrc1) :
    alu_op1_src_out r1_out pc sel =
      match sel with
      | AluSrc1.REG1 => r1_out
      | AluSrc1.PC => pc := by
  cases sel <;> simp [alu_op1_src_out, EnumMultiplexer.out, AluSrc1.ord, List.find?]

theorem alu_op2_src_out_eq (r2_out imm : Nat) (sel : AluSrc2) :
    alu_op2_src_out r2_out imm sel =
      match sel with
      | AluSrc2.REG2 => r2_out
      | AluSrc2.IMM => imm := by
  cases sel <;> simp [alu_op2_src_out, EnumMultiplexer.out, AluSrc2.ord, List.find?]

/-! ## Lemmas about the pending-halt flag -/

theorem afterDesign_design (p : SingleCycleRISCV) (r : Design × Bool) :
    (SingleCycleRISCV.afterDesign p r).design = r.1 := by
  unfold SingleCycleRISCV.afterDesign SingleCycleRISCV.finalize
  split <;> rfl

theorem afterDesign_flag (p : SingleCycleRISCV) (r : Design × Bool) :
    (SingleCycleRISCV.afterDesign p r).m_finishInNextCycle = (r.2 || p.m_finishInNextCycle) := by
  unfold SingleCycleRISCV.afterDesign SingleCycleRISCV.finalize
  cases h : r.2 <;> simp

theorem clock_emits (C : Components) (p : SingleCycleRISCV) :
    (SingleCycleRISCV.clock C p).2 = p.m_finishInNextCycle := rfl

theorem clock_design (C : Components) (p : SingleCycleRISCV) :
    (SingleCycleRISCV.clock C p).1.design = (Design.clock C p.design).1 := by
  simp [SingleCycleRISCV.clock, afterDesign_design]

theorem clock_flag (C : Components) (p : SingleCycleRISCV) :
    (SingleCycleRISCV.clock C p).1.m_finishInNextCycle =
      ((Design.clock C p.design).2 || p.m_finishInNextCycle) := by
  simp [SingleCycleRISCV.clock, afterDesign_flag]

theorem run_clocks_of_pending (C : Components) (n : Nat) :
    ∀ p : SingleCycleRISCV, p.m_finishInNextCycle = true →
      (run C (List.replicate n Call.clock) p).2 = List.replicate n true := by
  induction n with
  | zero => intro p _; rfl
  | succ k ih =>
    intro p hp
    have hnext : (SingleCycleRISCV.clock C p).1.m_finishInNextCycle = true := by
      rw [clock_flag, hp]; simp
    simp only [List.replicate_succ, run, clock_emits, hp, ih _ hnext]

theorem rewind_eq_of_design (C : Components) (p q : SingleCycleRISCV)
    (h : q.design = p.design) : SingleCycleRISCV.rewind C q = SingleCycleRISCV.rewind C p := by
  cases p with
  | mk pd pf =>
    cases q with
    | mk qd qf =>
      simp only at h
      subst h
      simp only [SingleCycleRISCV.rewind, SingleCycleRISCV.afterDesign,
        SingleCycleRISCV.finalize]
      split <;> rfl

/-! ## The `finished` notification -/

/-- C1 (as stated, refuted): `finalize()` followed by two `clock()` calls, with no
`reset()` or `rewind()` and no further `finalize()` (neither `Design::clock()` runs the
syscall handler), emits `finished` in the first and again in the second `clock()`. -/
theorem C1_second_clock_emits_again :
    (Design.clock sampleComponents idleDesign).2 = false ∧
    (Design.clock sampleComponents (Design.clock sampleComponents idleDesign).1).2 = false ∧
    (run sampleComponents [Call.finalize, Call.clock, Call.clock]
        { design := idleDesign, m_finishInNextCycle := false }).2 = [true, true] ∧
    (run sampleComponents [Call.finalize, Call.clock, Call.clock]
        { design := idleDesign, m_finishInNextCycle := false }).2 ≠ [true, false] := by
  decide

/-- C1 (amended): after a `finalize()` call, in every sequence of `clock()` calls
without `reset()` or `rewind()`, the first `clock()` emits `finished` once, and, since
`clock()` never clears the flag, so does every later `clock()` of the sequence. -/
theorem C1_every_clock_after_finalize_emits (C : Components) (p : SingleCycleRISCV) (n : Nat) :
    (run C (Call.finalize :: List.replicate n Call.clock) p).2 = List.replicate n true ∧
    (run C (Call.finalize :: List.replicate n Call.clock) p).1.m_finishInNextCycle = true := by
  constructor
  · exact run_clocks_of_pending C n (SingleCycleRISCV.finalize p) rfl
  · show (run C (List.replicate n Call.clock) (SingleCycleRISCV.finalize p)).1.m_finishInNextCycle
      = true
    generalize hq : SingleCycleRISCV.finalize p = q
    have hflag : q.m_finishInNextCycle = true := by rw [← hq]; rfl
    clear hq
    induction n generalizing q with
    | zero => exact hflag
    | succ k ih =>
      simp only [List.replicate_succ, run]
      apply ih
      rw [clock_flag, hflag]; simp

/-- C2: `clock()` emits `finished` iff the flag was set before that `clock()` began; so
from a state with the flag clear, a `clock()` during which `finalize()` is called emits
nothing and leaves the flag set, and the `clock()` right after it emits `finished`. -/
theorem C2_one_cycle_halt_delay (C : Components) (p : SingleCycleRISCV)
    (hclear : p.m_finishInNextCycle = false)
    (hfinalize : (Design.clock C p.design).2 = true) :
    (SingleCycleRISCV.clock C p).2 = false ∧
    (SingleCycleRISCV.clock C p).1.m_finishInNextCycle = true ∧
    (SingleCycleRISCV.clock C (SingleCycleRISCV.clock C p).1).2 = true ∧
    (∀ q : SingleCycleRISCV,
      (SingleCycleRISCV.clock C q).2 = true ↔ q.m_finishInNextCycle = true) := by
  refine ⟨?_, ?_, ?_, ?_⟩
  · rw [clock_emits, hclear]
  · rw [clock_flag, hfinalize]; rfl
  · rw [clock_emits, clock_flag, hfinalize]; rfl
  · intro q; rw [clock_emits]

/-- C2 at a concrete input: the processor at PC 0 of `ecallProgram`, whose first
`clock()` brings the `ecall` at address 4 into decode. -/
theorem C2_one_cycle_halt_delay_witness :
    (SingleCycleRISCV.clock sampleComponents
        { design := ecallDesign, m_finishInNextCycle := false }).2 = false ∧
    (SingleCycleRISCV.clock sampleComponents
        { design := ecallDesign, m_finishInNextCycle := false }).1.m_finishInNextCycle = true ∧
    (SingleCycleRISCV.clock sampleComponents (SingleCycleRISCV.clock sampleComponents
        { design := ecallDesign, m_finishInNextCycle := false }).1).2 = true :=
  have h := C2_one_cycle_halt_delay sampleComponents
    { design := ecallDesign, m_finishInNextCycle := false } rfl (by decide)
  ⟨h.1, h.2.1, h.2.2.1⟩

/-- C6: after `rewind()` the flag is clear whatever it was before; the processor after
`rewind()` does not depend on the flag at all, so any later sequence of calls emits
`finished` exactly as it does from the same design with `finalize()` never called; in
particular a `clock()` right after the `rewind()` emits nothing. -/
theorem C6_rewind_clears_pending_halt (C : Components) (p : SingleCycleRISCV)
    (calls : List Call) :
    (SingleCycleRISCV.rewind C p).m_finishInNextCycle = false ∧
    (SingleCycleRISCV.rewind C (SingleCycleRISCV.finalize p)).m_finishInNextCycle = false ∧
    (SingleCycleRISCV.clock C (SingleCycleRISCV.rewind C (SingleCycleRISCV.finalize p))).2
      = false ∧
    (run C calls (SingleCycleRISCV.rewind C (SingleCycleRISCV.finalize p))).2 =
      (run C calls (SingleCycleRISCV.rewind C
        { design := p.design, m_finishInNextCycle := false })).2 ∧
    (run C (Call.finalize :: Call.rewind :: calls) p).2 =
      (run C (Call.rewind :: calls) { design := p.design, m_finishInNextCycle := false }).2 := by
  have heq : SingleCycleRISCV.rewind C (SingleCycleRISCV.finalize p) =
      SingleCycleRISCV.rewind C { design := p.design, m_finishInNextCycle := false } :=
    rewind_eq_of_design C _ _ rfl
  refine ⟨rfl, rfl, rfl, ?_, ?_⟩
  · rw [heq]
  · simp only [run]; rw [heq]

/-- C7: after `reset()` the flag is clear whatever it was before, so a `clock()` right
after a `reset()` emits nothing, also when `finalize()` was called before the reset. -/
theorem C7_reset_clears_pending_halt (C : Components) (p : SingleCycleRISCV) :
    (SingleCycleRISCV.reset C p).m_finishInNextCycle = false ∧
    (SingleCycleRISCV.clock C (SingleCycleRISCV.reset C p)).2 = false ∧
    (SingleCycleRISCV.reset C (SingleCycleRISCV.finalize p)).m_finishInNextCycle = false ∧
    (SingleCycleRISCV.clock C (SingleCycleRISCV.reset C (SingleCycleRISCV.finalize p))).2
      = false ∧
    (run C [Call.finalize, Call.reset, Call.clock] p).2 = [false] := by
  refine ⟨rfl, rfl, rfl, rfl, rfl⟩

/-! ## The datapath -/

theorem design_clock_pc (C : Components) (d : Design) :
    (Design.clock C d).1.pc_reg =
      if (((d.signals C).branch_res && (d.signals C).control.do_branch) ||
          (d.signals C).control.do_jump) = true
      then (d.signals C).alu_res else (d.pc_reg + 4) % 2 ^ 32 := by
  simp only [Design.clock, Design.signals, propagateDesign, pc_src_out_eq]

theorem design_clock_regs (C : Components) (d : Design) :
    (Design.clock C d).1.m_regMem =
      if (d.signals C).control.reg_do_write_ctrl = true
      then C.reg_write d.m_regMem (d.signals C).decode_wr_reg_idx
        (d.signals C).registerFile_data_in
      else d.m_regMem := by
  simp only [Design.clock, Design.signals, propagateDesign, RegisterFile.clock]

theorem design_clock_memory (C : Components) (d : Design) :
    (Design.clock C d).1.m_memory =
      if (d.signals C).control.mem_do_write_ctrl = true
      then C.mem_write d.m_memory (d.signals C).alu_res (d.signals C).registerFile_r2_out
        (d.signals C).control.mem_ctrl
      else d.m_memory := by
  simp only [Design.clock, Design.signals, propagateDesign, RVMemory.clock]

theorem clockN_pc_sequential (C : Components) (N : Nat) :
    ∀ p : SingleCycleRISCV, p.design.pc_reg < 2 ^ 32 →
      (∀ i, i < N →
        ((((clockN C i p).design.signals C).branch_res &&
            ((clockN C i p).design.signals C).control.do_branch) ||
          ((clockN C i p).design.signals C).control.do_jump) = false) →
      (clockN C N p).design.pc_reg = (p.design.pc_reg + 4 * N) % 2 ^ 32 := by
  induction N with
  | zero =>
    intro p hp _
    simp only [clockN, Nat.mul_zero, Nat.add_zero]
    exact (Nat.mod_eq_of_lt hp).symm
  | succ k ih =>
    intro p hp hseq
    have h0 := hseq 0 (Nat.succ_pos k)
    simp only [clockN] at h0
    have hpc : (SingleCycleRISCV.clock C p).1.design.pc_reg = (p.design.pc_reg + 4) % 2 ^ 32 := by
      rw [clock_design, design_clock_pc, h0]; simp
    have hlt : (SingleCycleRISCV.clock C p).1.design.pc_reg < 2 ^ 32 := by
      rw [hpc]; exact Nat.mod_lt _ (by norm_num)
    have hrest := ih (SingleCycleRISCV.clock C p).1 hlt
      (fun i hi => hseq (i + 1) (Nat.succ_lt_succ hi))
    simp only [clockN]
    rw [hrest, hpc]
    omega

theorem signals_alu_op1 (C : Components) (d : Design) :
    (d.signals C).alu_op1 =
      (match (d.signals C).control.alu_op1_ctrl with
        | AluSrc1.REG1 => (d.signals C).registerFile_r1_out
        | AluSrc1.PC => d.pc_reg) := by
  show alu_op1_src_out _ _ _ = _
  rw [alu_op1_src_out_eq]
  rfl

theorem signals_alu_op2 (C : Components) (d : Design) :
    (d.signals C).alu_op2 =
      (match (d.signals C).control.alu_op2_ctrl with
        | AluSrc2.REG2 => (d.signals C).registerFile_r2_out
        | AluSrc2.IMM => (d.signals C).immediate_imm) := by
  show alu_op2_src_out _ _ _ = _
  rw [alu_op2_src_out_eq]
  rfl

theorem signals_data_in (C : Components) (d : Design) :
    (d.signals C).registerFile_data_in =
      (match (d.signals C).control.reg_wr_src_ctrl with
        | RegWrSrc.ALURES => (d.signals C).alu_res
        | RegWrSrc.MEMREAD => (d.signals C).data_mem_data_out
        | RegWrSrc.PC4 => (d.pc_reg + 4) % 2 ^ 32) := by
  show reg_wr_src_out _ _ (pc_4_out d.pc_reg) _ = _
  rw [reg_wr_src_out_eq, pc_4_out_eq]
  rfl

theorem signals_pc_src (C : Components) (d : Design) :
    (d.signals C).pc_src_out =
      (if (((d.signals C).branch_res && (d.signals C).control.do_branch) ||
            (d.signals C).control.do_jump) = true
        then (d.signals C).alu_res else (d.pc_reg + 4) % 2 ^ 32) := by
  show pc_src_out _ _ _ _ _ = _
  rw [pc_src_out_eq]
  rfl

/-- C4: for every PC, ALU result, branch result, `do_branch` and `do_jump`, the output
of `pc_src` is the ALU result when (branch result AND `do_branch`) OR `do_jump` holds
and PC + 4 modulo 2^32 otherwise; a selector bit of 1 picks the `PcSrc::ALU` input and 0
the `PcSrc::PC4` input. In the design the five inputs are the current PC, the result of
`ALU` on the selected operands, the result of `Branch` on the two register read ports and
the `do_branch` and `do_jump` outputs of `Control` for the fetched opcode; the output is
what `nextPcForStage` reports and what the PC register holds after the clock edge. -/
theorem C4_next_pc_selection (C : Components) (p : SingleCycleRISCV)
    (pc alu_res : Nat) (branch_res do_branch do_jump : Bool) (get : PcSrc → Nat) :
    pc_src_out pc alu_res branch_res do_branch do_jump =
      (if ((branch_res && do_branch) || do_jump) = true then alu_res
        else (pc + 4) % 2 ^ 32) ∧
    controlflow_or_out branch_res do_branch do_jump = ((branch_res && do_branch) || do_jump) ∧
    EnumMultiplexer.out PcSrc.ord [PcSrc.PC4, PcSrc.ALU] get (true).toNat = get PcSrc.ALU ∧
    EnumMultiplexer.out PcSrc.ord [PcSrc.PC4, PcSrc.ALU] get (false).toNat = get PcSrc.PC4 ∧
    (p.design.signals C).pc_src_out =
      pc_src_out p.design.pc_reg (p.design.signals C).alu_res (p.design.signals C).branch_res
        (p.design.signals C).control.do_branch (p.design.signals C).control.do_jump ∧
    (p.design.signals C).pc_reg_in = (p.design.signals C).pc_src_out ∧
    SingleCycleRISCV.nextPcForStage C p = (p.design.signals C).pc_src_out ∧
    (SingleCycleRISCV.clock C p).1.design.pc_reg = (p.design.signals C).pc_src_out ∧
    (p.design.signals C).control = C.control (C.decode_opcode (C.instr_mem p.design.m_memory p.design.pc_reg)) ∧
    (p.design.signals C).registerFile_r1_out =
      C.reg_read p.design.m_regMem (C.decode_r1_reg_idx (C.instr_mem p.design.m_memory p.design.pc_reg)) ∧
    (p.design.signals C).registerFile_r2_out =
      C.reg_read p.design.m_regMem (C.decode_r2_reg_idx (C.instr_mem p.design.m_memory p.design.pc_reg)) ∧
    (p.design.signals C).immediate_imm =
      C.immediate (C.decode_opcode (C.instr_mem p.design.m_memory p.design.pc_reg))
        (C.instr_mem p.design.m_memory p.design.pc_reg) ∧
    (p.design.signals C).alu_op1 =
      (match (p.design.signals C).control.alu_op1_ctrl with
        | AluSrc1.REG1 => (p.design.signals C).registerFile_r1_out
        | AluSrc1.PC => p.design.pc_reg) ∧
    (p.design.signals C).alu_op2 =
      (match (p.design.signals C).control.alu_op2_ctrl with
        | AluSrc2.REG2 => (p.design.signals C).registerFile_r2_out
        | AluSrc2.IMM => (p.design.signals C).immediate_imm) ∧
    (p.design.signals C).alu_res =
      C.alu (p.design.signals C).control.alu_ctrl (p.design.signals C).alu_op1
        (p.design.signals C).alu_op2 ∧
    (p.design.signals C).branch_res =
      C.branch (p.design.signals C).control.comp_ctrl (p.design.signals C).registerFile_r1_out
        (p.design.signals C).registerFile_r2_out ∧
    (p.design.signals C).controlflow_or_out =
      (((p.design.signals C).branch_res && (p.design.signals C).control.do_branch) ||
        (p.design.signals C).control.do_jump) ∧
    (p.design.signals C).pc_src_out =
      (if (((p.design.signals C).branch_res && (p.design.signals C).control.do_branch) ||
            (p.design.signals C).control.do_jump) = true
        then (p.design.signals C).alu_res else (p.design.pc_reg + 4) % 2 ^ 32) ∧
    (SingleCycleRISCV.clock C p).1.design.pc_reg =
      (if (((p.design.signals C).branch_res && (p.design.signals C).control.do_branch) ||
            (p.design.signals C).control.do_jump) = true
        then (p.design.signals C).alu_res else (p.design.pc_reg + 4) % 2 ^ 32) := by
  refine ⟨pc_src_out_eq _ _ _ _ _, controlflow_or_out_eq _ _ _, pc_src_select_one,
    pc_src_select_zero, rfl, rfl, rfl, ?_, rfl, rfl, rfl, rfl, signals_alu_op1 C p.design, signals_alu_op2 C p.design, rfl, rfl,
    controlflow_or_out_eq _ _ _, signals_pc_src C p.design, ?_⟩
  · rw [clock_design]; rfl
  · rw [clock_design, design_clock_pc]

/-- C4 at concrete inputs: the jump at PC 4 (immediate 8) loads the ALU result 12, the
taken branch at PC 8 (immediate 12) loads the ALU result 20, and the add at PC 0 loads
PC + 4. -/
theorem C4_next_pc_selection_witness :
    (SingleCycleRISCV.clock sampleComponents
      { design := jumpDesign, m_finishInNextCycle := false }).1.design.pc_reg = 12 ∧
    (SingleCycleRISCV.clock sampleComponents
      { design := branchDesign, m_finishInNextCycle := false }).1.design.pc_reg = 20 ∧
    (SingleCycleRISCV.clock sampleComponents
      { design := ecallDesign, m_finishInNextCycle := false }).1.design.pc_reg = 4 := by
  refine ⟨?_, ?_, ?_⟩
  · obtain ⟨_, _, _, _, _, _, _, _, _, _, _, _, _, _, _, _, _, _, h⟩ :=
      C4_next_pc_selection sampleComponents
        { design := jumpDesign, m_finishInNextCycle := false } 0 0 false false false (fun _ => 0)
    exact h.trans (by decide)
  · obtain ⟨_, _, _, _, _, _, _, _, _, _, _, _, _, _, _, _, _, _, h⟩ :=
      C4_next_pc_selection sampleComponents
        { design := branchDesign, m_finishInNextCycle := false } 0 0 false false false (fun _ => 0)
    exact h.trans (by decide)
  · obtain ⟨_, _, _, _, _, _, _, _, _, _, _, _, _, _, _, _, _, _, h⟩ :=
      C4_next_pc_selection sampleComponents
        { design := ecallDesign, m_finishInNextCycle := false } 0 0 false false false (fun _ => 0)
    exact h.trans (by decide)

/-- C5: from a start address `p` below 2^32, if in each of `N` consecutive clock steps
the take-alternate decision (branch result AND `do_branch`) OR `do_jump` is false, the
program counter after the `N` steps is `p + 4 * N` modulo 2^32. -/
theorem C5_sequential_pc_advance (C : Components) (p : SingleCycleRISCV) (N : Nat)
    (hpc : p.design.pc_reg < 2 ^ 32)
    (hseq : ∀ i, i < N →
      ((((clockN C i p).design.signals C).branch_res &&
          ((clockN C i p).design.signals C).control.do_branch) ||
        ((clockN C i p).design.signals C).control.do_jump) = false) :
    (clockN C N p).design.pc_reg = (p.design.pc_reg + 4 * N) % 2 ^ 32 ∧
    SingleCycleRISCV.pcForStage C (clockN C N p) = (p.design.pc_reg + 4 * N) % 2 ^ 32 := by
  have h := clockN_pc_sequential C N p hpc hseq
  exact ⟨h, h⟩

/-- C5 at a concrete input: three steps over zero words from PC 0 reach PC 12. -/
theorem C5_sequential_pc_advance_witness :
    (clockN sampleComponents 3
      { design := idleDesign, m_finishInNextCycle := false }).design.pc_reg = 12 :=
  (C5_sequential_pc_advance sampleComponents
    { design := idleDesign, m_finishInNextCycle := false } 3 (by decide) (by decide)).1

/-- C8: in every cycle the write port of the register file is addressed by the decoded
rd index and enabled exactly by the `reg_do_write_ctrl` output of `Control` for the
fetched opcode, and its data input is the ALU result for `ALURES`, the data-memory read
value for `MEMREAD` and PC + 4 of the pre-edge PC for `PC4`, where the ALU result is
`ALU` applied to the selected operands and the read value is the memory read at that
ALU result; at the edge the register file is written with exactly that address and data
when enabled and is left alone otherwise. -/
theorem C8_register_write_back_selection (C : Components) (p : SingleCycleRISCV) :
    (p.design.signals C).registerFile_wr_addr =
      C.decode_wr_reg_idx (C.instr_mem p.design.m_memory p.design.pc_reg) ∧
    (p.design.signals C).registerFile_wr_addr = (p.design.signals C).decode_wr_reg_idx ∧
    (p.design.signals C).registerFile_wr_en = (p.design.signals C).control.reg_do_write_ctrl ∧
    (p.design.signals C).control = C.control (C.decode_opcode (C.instr_mem p.design.m_memory p.design.pc_reg)) ∧
    (p.design.signals C).registerFile_data_in =
      (match (p.design.signals C).control.reg_wr_src_ctrl with
        | RegWrSrc.ALURES => (p.design.signals C).alu_res
        | RegWrSrc.MEMREAD => (p.design.signals C).data_mem_data_out
        | RegWrSrc.PC4 => (p.design.pc_reg + 4) % 2 ^ 32) ∧
    (SingleCycleRISCV.clock C p).1.design.m_regMem =
      (if (p.design.signals C).control.reg_do_write_ctrl = true
        then C.reg_write p.design.m_regMem (p.design.signals C).decode_wr_reg_idx
          (match (p.design.signals C).control.reg_wr_src_ctrl with
            | RegWrSrc.ALURES => (p.design.signals C).alu_res
            | RegWrSrc.MEMREAD => (p.design.signals C).data_mem_data_out
            | RegWrSrc.PC4 => (p.design.pc_reg + 4) % 2 ^ 32)
        else p.design.m_regMem) ∧
    (p.design.signals C).registerFile_r1_out =
      C.reg_read p.design.m_regMem (C.decode_r1_reg_idx (C.instr_mem p.design.m_memory p.design.pc_reg)) ∧
    (p.design.signals C).registerFile_r2_out =
      C.reg_read p.design.m_regMem (C.decode_r2_reg_idx (C.instr_mem p.design.m_memory p.design.pc_reg)) ∧
    (p.design.signals C).immediate_imm =
      C.immediate (C.decode_opcode (C.instr_mem p.design.m_memory p.design.pc_reg))
        (C.instr_mem p.design.m_memory p.design.pc_reg) ∧
    (p.design.signals C).alu_op1 =
      (match (p.design.signals C).control.alu_op1_ctrl with
        | AluSrc1.REG1 => (p.design.signals C).registerFile_r1_out
        | AluSrc1.PC => p.design.pc_reg) ∧
    (p.design.signals C).alu_op2 =
      (match (p.design.signals C).control.alu_op2_ctrl with
        | AluSrc2.REG2 => (p.design.signals C).registerFile_r2_out
        | AluSrc2.IMM => (p.design.signals C).immediate_imm) ∧
    (p.design.signals C).alu_res =
      C.alu (p.design.signals C).control.alu_ctrl (p.design.signals C).alu_op1
        (p.design.signals C).alu_op2 ∧
    (p.design.signals C).data_mem_data_out =
      C.mem_read p.design.m_memory (p.design.signals C).alu_res
        (p.design.signals C).control.mem_ctrl := by
  refine ⟨rfl, rfl, rfl, rfl, signals_data_in C p.design, ?_,
    rfl, rfl, rfl, signals_alu_op1 C p.design, signals_alu_op2 C p.design, rfl, rfl⟩
  rw [clock_design, design_clock_regs, signals_data_in]

/-- C8 at concrete inputs: the add of immediate 5 at PC 0 writes the ALU result 5 to
register 1, the jump at PC 4 writes PC + 4 = 8 to register 1, and the store (write
enable clear) leaves register 1 at 0. -/
theorem C8_register_write_back_selection_witness :
    (SingleCycleRISCV.clock sampleComponents
      { design := ecallDesign, m_finishInNextCycle := false }).1.design.m_regMem 1 = 5 ∧
    (SingleCycleRISCV.clock sampleComponents
      { design := jumpDesign, m_finishInNextCycle := false }).1.design.m_regMem 1 = 8 ∧
    (SingleCycleRISCV.clock sampleComponents
      { design := storeDesign, m_finishInNextCycle := false }).1.design.m_regMem 1 = 0 := by
  refine ⟨?_, ?_, ?_⟩
  · obtain ⟨_, _, _, _, _, h, _⟩ := C8_register_write_back_selection sampleComponents
      { design := ecallDesign, m_finishInNextCycle := false }
    exact (congrFun h 1).trans (by decide)
  · obtain ⟨_, _, _, _, _, h, _⟩ := C8_register_write_back_selection sampleComponents
      { design := jumpDesign, m_finishInNextCycle := false }
    exact (congrFun h 1).trans (by decide)
  · obtain ⟨_, _, _, _, _, h, _⟩ := C8_register_write_back_selection sampleComponents
      { design := storeDesign, m_finishInNextCycle := false }
    exact (congrFun h 1).trans (by decide)

/-- C9: in every cycle ALU operand 1 is register read port 1 when the `alu_op1_ctrl`
output of `Control` for the fetched opcode is `REG1` and the current PC when it is `PC`,
ALU operand 2 is register read port 2 when `alu_op2_ctrl` is `REG2` and the output of
`Immediate` when it is `IMM`, and the operands of the branch comparator are register
read ports 1 and 2 whatever the two ALU operand selectors are. -/
theorem C9_alu_operand_selection (C : Components) (p : SingleCycleRISCV) :
    (p.design.signals C).alu_op1 =
      (match (p.design.signals C).control.alu_op1_ctrl with
        | AluSrc1.REG1 => (p.design.signals C).registerFile_r1_out
        | AluSrc1.PC => p.design.pc_reg) ∧
    (p.design.signals C).alu_op2 =
      (match (p.design.signals C).control.alu_op2_ctrl with
        | AluSrc2.REG2 => (p.design.signals C).registerFile_r2_out
        | AluSrc2.IMM => (p.design.signals C).immediate_imm) ∧
    (p.design.signals C).alu_res =
      C.alu (p.design.signals C).control.alu_ctrl (p.design.signals C).alu_op1
        (p.design.signals C).alu_op2 ∧
    (p.design.signals C).branch_op1 = (p.design.signals C).registerFile_r1_out ∧
    (p.design.signals C).branch_op2 = (p.design.signals C).registerFile_r2_out ∧
    (p.design.signals C).registerFile_r1_out =
      C.reg_read p.design.m_regMem (C.decode_r1_reg_idx (C.instr_mem p.design.m_memory p.design.pc_reg)) ∧
    (p.design.signals C).registerFile_r2_out =
      C.reg_read p.design.m_regMem (C.decode_r2_reg_idx (C.instr_mem p.design.m_memory p.design.pc_reg)) ∧
    (p.design.signals C).immediate_imm =
      C.immediate (C.decode_opcode (C.instr_mem p.design.m_memory p.design.pc_reg))
        (C.instr_mem p.design.m_memory p.design.pc_reg) ∧
    (p.design.signals C).branch_res =
      C.branch (p.design.signals C).control.comp_ctrl (p.design.signals C).registerFile_r1_out
        (p.design.signals C).registerFile_r2_out ∧
    (p.design.signals C).control = C.control (C.decode_opcode (C.instr_mem p.design.m_memory p.design.pc_reg)) ∧
    (p.design.signals C).branch_op1 =
      C.reg_read p.design.m_regMem (C.decode_r1_reg_idx (C.instr_mem p.design.m_memory p.design.pc_reg)) ∧
    (p.design.signals C).branch_op2 =
      C.reg_read p.design.m_regMem (C.decode_r2_reg_idx (C.instr_mem p.design.m_memory p.design.pc_reg)) := by
  exact ⟨signals_alu_op1 C p.design, signals_alu_op2 C p.design, rfl, rfl, rfl, rfl, rfl, rfl,
    rfl, rfl, rfl, rfl⟩

/-- C9 at concrete inputs: for the branch at PC 8 (immediate 12) the ALU operands are the
PC and the immediate while the comparator gets the two register values; for the add of
immediate 5 operand 1 is register read port 1 and operand 2 the immediate. -/
theorem C9_alu_operand_selection_witness :
    (branchDesign.signals sampleComponents).alu_op1 = 8 ∧
    (branchDesign.signals sampleComponents).alu_op2 = 12 ∧
    (branchDesign.signals sampleComponents).branch_op1 = 0 ∧
    (ecallDesign.signals sampleComponents).alu_op1 = 0 ∧
    (ecallDesign.signals sampleComponents).alu_op2 = 5 := by
  obtain ⟨h1, h2, _, _, _, _, _, _, _, _, h3, _⟩ := C9_alu_operand_selection sampleComponents
    { design := branchDesign, m_finishInNextCycle := false }
  obtain ⟨h4, h5, _⟩ := C9_alu_operand_selection sampleComponents
    { design := ecallDesign, m_finishInNextCycle := false }
  exact ⟨h1.trans (by decide), h2.trans (by decide), h3.trans (by decide),
    h4.trans (by decide), h5.trans (by decide)⟩

/-- C10: in every cycle the data memory is addressed by the ALU result (`ALU` applied to
the selected operands), its write data is the value of register read port 2, its
operation is the `mem_ctrl` output and its write enable the `mem_do_write_ctrl` output
of `Control` for the fetched opcode; at the edge the memory takes exactly that write when
enabled, and a cycle in which `mem_do_write_ctrl` is false leaves the memory
unchanged. -/
theorem C10_data_memory_access (C : Components) (p : SingleCycleRISCV) :
    (p.design.signals C).data_mem_addr = (p.design.signals C).alu_res ∧
    (p.design.signals C).data_mem_data_in = (p.design.signals C).registerFile_r2_out ∧
    (p.design.signals C).data_mem_op = (p.design.signals C).control.mem_ctrl ∧
    (p.design.signals C).data_mem_wr_en = (p.design.signals C).control.mem_do_write_ctrl ∧
    (p.design.signals C).data_mem_data_out =
      C.mem_read p.design.m_memory (p.design.signals C).alu_res
        (p.design.signals C).control.mem_ctrl ∧
    (SingleCycleRISCV.clock C p).1.design.m_memory =
      (if (p.design.signals C).control.mem_do_write_ctrl = true
        then C.mem_write p.design.m_memory (p.design.signals C).alu_res
          (p.design.signals C).registerFile_r2_out (p.design.signals C).control.mem_ctrl
        else p.design.m_memory) ∧
    ((p.design.signals C).control.mem_do_write_ctrl = false →
      (SingleCycleRISCV.clock C p).1.design.m_memory = p.design.m_memory) ∧
    (p.design.signals C).control = C.control (C.decode_opcode (C.instr_mem p.design.m_memory p.design.pc_reg)) ∧
    (p.design.signals C).registerFile_r1_out =
      C.reg_read p.design.m_regMem (C.decode_r1_reg_idx (C.instr_mem p.design.m_memory p.design.pc_reg)) ∧
    (p.design.signals C).registerFile_r2_out =
      C.reg_read p.design.m_regMem (C.decode_r2_reg_idx (C.instr_mem p.design.m_memory p.design.pc_reg)) ∧
    (p.design.signals C).immediate_imm =
      C.immediate (C.decode_opcode (C.instr_mem p.design.m_memory p.design.pc_reg))
        (C.instr_mem p.design.m_memory p.design.pc_reg) ∧
    (p.design.signals C).alu_op1 =
      (match (p.design.signals C).control.alu_op1_ctrl with
        | AluSrc1.REG1 => (p.design.signals C).registerFile_r1_out
        | AluSrc1.PC => p.design.pc_reg) ∧
    (p.design.signals C).alu_op2 =
      (match (p.design.signals C).control.alu_op2_ctrl with
        | AluSrc2.REG2 => (p.design.signals C).registerFile_r2_out
        | AluSrc2.IMM => (p.design.signals C).immediate_imm) ∧
    (p.design.signals C).alu_res =
      C.alu (p.design.signals C).control.alu_ctrl (p.design.signals C).alu_op1
        (p.design.signals C).alu_op2 ∧
    ((C.control (C.decode_opcode (C.instr_mem p.design.m_memory p.design.pc_reg))).mem_do_write_ctrl
        = false →
      (SingleCycleRISCV.clock C p).1.design.m_memory = p.design.m_memory) := by
  refine ⟨rfl, rfl, rfl, rfl, rfl, ?_, ?_, rfl, rfl, rfl, rfl, signals_alu_op1 C p.design, signals_alu_op2 C p.design, rfl, ?_⟩
  · rw [clock_design, design_clock_memory]
  · intro h
    rw [clock_design, design_clock_memory, h]; simp
  · intro h
    rw [clock_design, design_clock_memory]
    have hs : (p.design.signals C).control.mem_do_write_ctrl = false := h
    rw [hs]; simp

/-- C10 at concrete inputs: the store at PC 0 writes the value 7 of register 4 to
address 68, the ALU result, and leaves address 64 alone; the add at PC 0 of
`ecallProgram` has `mem_do_write_ctrl` clear and leaves the memory unchanged. -/
theorem C10_data_memory_access_witness :
    (SingleCycleRISCV.clock sampleComponents
      { design := storeDesign, m_finishInNextCycle := false }).1.design.m_memory 68 = 7 ∧
    (SingleCycleRISCV.clock sampleComponents
      { design := storeDesign, m_finishInNextCycle := false }).1.design.m_memory 64 = 0 ∧
    storeDesign.m_memory 68 = 0 ∧
    (SingleCycleRISCV.clock sampleComponents
      { design := ecallDesign, m_finishInNextCycle := false }).1.design.m_memory
      = ecallDesign.m_memory := by
  obtain ⟨_, _, _, _, _, hw, _⟩ := C10_data_memory_access sampleComponents
    { design := storeDesign, m_finishInNextCycle := false }
  obtain ⟨_, _, _, _, _, _, hf, _⟩ := C10_data_memory_access sampleComponents
    { design := ecallDesign, m_finishInNextCycle := false }
  exact ⟨(congrFun hw 68).trans (by decide), (congrFun hw 64).trans (by decide), by decide,
    hf (by decide)⟩

end Ripes
